import Mathlib

/-!
Verification of the configuration-and-composition core of
`tower-http/src/trace/layer.rs`: the `TraceLayer` builder, its two preset
constructors, the six fluent slot mutators, the `Clone` and `fmt::Debug`
conformances, and the terminal `Layer::layer` operation.

The embedding is a direct shallow translation: `TraceLayer` becomes a Lean
structure with one field per Rust field (including the zero-size phantom
`_error` marker, carried as a `Unit` field), and every operation becomes a
total Lean function built from the same field assignments, in the same
order, as the Rust source.
-/

/-- Rust's `Clone` capability: a per-type duplication function. The trait
itself imposes no law; well-behavedness (`clone x = x` as a value) is taken
as an explicit hypothesis where a theorem needs it. -/
class Clone (α : Type) where
  clone : α → α

/-- Rust's `fmt::Debug` capability, modelled as rendering a value to a
string. -/
class Debug (α : Type) where
  fmt : α → String

/-- Modelled from the spec: the built-in default span factory
`DefaultMakeSpan` (from the trace module, not under the visible source);
its internals are out of scope, so it is a field-free capability value. -/
structure DefaultMakeSpan where

/-- `DefaultMakeSpan::new()`. -/
def DefaultMakeSpan.new : DefaultMakeSpan := {}

/-- Modelled from the spec: the built-in default request hook
`DefaultOnRequest`; internals out of scope. -/
structure DefaultOnRequest where

/-- `DefaultOnRequest::default()`. -/
def DefaultOnRequest.default : DefaultOnRequest := {}

/-- Modelled from the spec: the built-in default response hook
`DefaultOnResponse`; internals out of scope. -/
structure DefaultOnResponse where

/-- `DefaultOnResponse::default()`. -/
def DefaultOnResponse.default : DefaultOnResponse := {}

/-- Modelled from the spec: the built-in default body-chunk hook
`DefaultOnBodyChunk`; internals out of scope. -/
structure DefaultOnBodyChunk where

/-- `DefaultOnBodyChunk::default()`. -/
def DefaultOnBodyChunk.default : DefaultOnBodyChunk := {}

/-- Modelled from the spec: the built-in default end-of-stream hook
`DefaultOnEos`; internals out of scope. -/
structure DefaultOnEos where

/-- `DefaultOnEos::default()`. -/
def DefaultOnEos.default : DefaultOnEos := {}

/-- Modelled from the spec: the built-in default failure hook
`DefaultOnFailure`; internals out of scope. -/
structure DefaultOnFailure where

/-- `DefaultOnFailure::default()`. -/
def DefaultOnFailure.default : DefaultOnFailure := {}

/-- Modelled from the spec: `SharedClassifier`, the shared wrapper turning a
classifier value into a classifier factory; internals out of scope. -/
structure SharedClassifier (C : Type) where
  classifier : C

/-- `SharedClassifier::new` (the `E` type argument of the Rust source is
compile-time only and carries no value). -/
def SharedClassifier.new {C : Type} (classifier : C) : SharedClassifier C :=
  { classifier := classifier }

/-- Modelled from the spec: the status-code-based classification policy
`ServerErrorsAsFailures`; its algorithm is out of scope. -/
structure ServerErrorsAsFailures where

/-- `ServerErrorsAsFailures::default()`. -/
def ServerErrorsAsFailures.default : ServerErrorsAsFailures := {}

/-- Modelled from the spec: the `grpc-status`-header-based classification
policy `GrpcErrorsAsFailures`; its algorithm is out of scope. -/
structure GrpcErrorsAsFailures where

/-- `GrpcErrorsAsFailures::default()`. -/
def GrpcErrorsAsFailures.default : GrpcErrorsAsFailures := {}

/-- The `TraceLayer` configuration (layer.rs lines 18-36): one classifier
factory slot, six hook slots, and the compile-time-only error marker `E`
whose `PhantomData` field is zero-size, modelled as a `Unit` field. -/
structure TraceLayer (M E MakeSpan OnRequest OnResponse OnBodyChunk OnEos
    OnFailure : Type) where
  make_classifier : M
  make_span : MakeSpan
  on_request : OnRequest
  on_response : OnResponse
  on_body_chunk : OnBodyChunk
  on_eos : OnEos
  on_failure : OnFailure
  _error : Unit

/-- `TraceLayer::new` (lines 63-80). The Rust bound `M: MakeClassifier<E>`
is a compile-time capability constraint carrying no runtime content, so it
does not appear in the embedding. -/
def TraceLayer.new {M E : Type} (make_classifier : M) :
    TraceLayer M E DefaultMakeSpan DefaultOnRequest DefaultOnResponse
      DefaultOnBodyChunk DefaultOnEos DefaultOnFailure :=
  { make_classifier := make_classifier,
    make_span := DefaultMakeSpan.new,
    on_failure := DefaultOnFailure.default,
    on_request := DefaultOnRequest.default,
    on_eos := DefaultOnEos.default,
    on_body_chunk := DefaultOnBodyChunk.default,
    on_response := DefaultOnResponse.default,
    _error := () }

/-- `TraceLayer::on_request` (lines 90-104). Named `with_on_request`
because Lean reserves `TraceLayer.on_request` for the field projection. -/
def TraceLayer.with_on_request {M E MS Req Res BC Eos F NReq : Type}
    (self : TraceLayer M E MS Req Res BC Eos F) (new_on_request : NReq) :
    TraceLayer M E MS NReq Res BC Eos F :=
  { on_request := new_on_request,
    on_failure := self.on_failure,
    on_eos := self.on_eos,
    on_body_chunk := self.on_body_chunk,
    make_span := self.make_span,
    on_response := self.on_response,
    make_classifier := self.make_classifier,
    _error := self._error }

/-- `TraceLayer::on_response` (lines 111-125). Named `with_on_response`
because Lean reserves `TraceLayer.on_response` for the field projection. -/
def TraceLayer.with_on_response {M E MS Req Res BC Eos F NRes : Type}
    (self : TraceLayer M E MS Req Res BC Eos F) (new_on_response : NRes) :
    TraceLayer M E MS Req NRes BC Eos F :=
  { on_response := new_on_response,
    on_request := self.on_request,
    on_eos := self.on_eos,
    on_body_chunk := self.on_body_chunk,
    on_failure := self.on_failure,
    make_span := self.make_span,
    make_classifier := self.make_classifier,
    _error := self._error }

/-- `TraceLayer::on_body_chunk` (lines 132-146). Named `with_on_body_chunk`
because Lean reserves `TraceLayer.on_body_chunk` for the field projection. -/
def TraceLayer.with_on_body_chunk {M E MS Req Res BC Eos F NBC : Type}
    (self : TraceLayer M E MS Req Res BC Eos F) (new_on_body_chunk : NBC) :
    TraceLayer M E MS Req Res NBC Eos F :=
  { on_body_chunk := new_on_body_chunk,
    on_eos := self.on_eos,
    on_failure := self.on_failure,
    on_request := self.on_request,
    make_span := self.make_span,
    on_response := self.on_response,
    make_classifier := self.make_classifier,
    _error := self._error }

/-- `TraceLayer::on_eos` (lines 153-167). Named `with_on_eos` because Lean
reserves `TraceLayer.on_eos` for the field projection. -/
def TraceLayer.with_on_eos {M E MS Req Res BC Eos F NEos : Type}
    (self : TraceLayer M E MS Req Res BC Eos F) (new_on_eos : NEos) :
    TraceLayer M E MS Req Res BC NEos F :=
  { on_eos := new_on_eos,
    on_body_chunk := self.on_body_chunk,
    on_failure := self.on_failure,
    on_request := self.on_request,
    make_span := self.make_span,
    on_response := self.on_response,
    make_classifier := self.make_classifier,
    _error := self._error }

/-- `TraceLayer::on_failure` (lines 174-188). Named `with_on_failure`
because Lean reserves `TraceLayer.on_failure` for the field projection. -/
def TraceLayer.with_on_failure {M E MS Req Res BC Eos F NF : Type}
    (self : TraceLayer M E MS Req Res BC Eos F) (new_on_failure : NF) :
    TraceLayer M E MS Req Res BC Eos NF :=
  { on_failure := new_on_failure,
    on_request := self.on_request,
    on_eos := self.on_eos,
    on_body_chunk := self.on_body_chunk,
    make_span := self.make_span,
    on_response := self.on_response,
    make_classifier := self.make_classifier,
    _error := self._error }

/-- `TraceLayer::make_span_with` (lines 196-210). -/
def TraceLayer.make_span_with {M E MS Req Res BC Eos F NMS : Type}
    (self : TraceLayer M E MS Req Res BC Eos F) (new_make_span : NMS) :
    TraceLayer M E NMS Req Res BC Eos F :=
  { make_span := new_make_span,
    on_request := self.on_request,
    on_failure := self.on_failure,
    on_body_chunk := self.on_body_chunk,
    on_eos := self.on_eos,
    on_response := self.on_response,
    make_classifier := self.make_classifier,
    _error := self._error }

/-- `TraceLayer::new_for_http` (lines 216-227). -/
def TraceLayer.new_for_http {E : Type} :
    TraceLayer (SharedClassifier ServerErrorsAsFailures) E DefaultMakeSpan
      DefaultOnRequest DefaultOnResponse DefaultOnBodyChunk DefaultOnEos
      DefaultOnFailure :=
  { make_classifier := SharedClassifier.new ServerErrorsAsFailures.default,
    make_span := DefaultMakeSpan.new,
    on_response := DefaultOnResponse.default,
    on_request := DefaultOnRequest.default,
    on_body_chunk := DefaultOnBodyChunk.default,
    on_eos := DefaultOnEos.default,
    on_failure := DefaultOnFailure.default,
    _error := () }

/-- `TraceLayer::new_for_grpc` (lines 233-244). -/
def TraceLayer.new_for_grpc {E : Type} :
    TraceLayer (SharedClassifier GrpcErrorsAsFailures) E DefaultMakeSpan
      DefaultOnRequest DefaultOnResponse DefaultOnBodyChunk DefaultOnEos
      DefaultOnFailure :=
  { make_classifier := SharedClassifier.new GrpcErrorsAsFailures.default,
    make_span := DefaultMakeSpan.new,
    on_response := DefaultOnResponse.default,
    on_request := DefaultOnRequest.default,
    on_body_chunk := DefaultOnBodyChunk.default,
    on_eos := DefaultOnEos.default,
    on_failure := DefaultOnFailure.default,
    _error := () }

/-- `impl Clone for TraceLayer` (lines 49-60): field-wise delegation to each
slot's own `clone`, in the source's order. -/
def TraceLayer.clone {M E MS Req Res BC Eos F : Type} [Clone M] [Clone MS]
    [Clone Req] [Clone Res] [Clone Eos] [Clone BC] [Clone F]
    (self : TraceLayer M E MS Req Res BC Eos F) :
    TraceLayer M E MS Req Res BC Eos F :=
  { on_request := Clone.clone self.on_request,
    on_response := Clone.clone self.on_response,
    on_failure := Clone.clone self.on_failure,
    on_eos := Clone.clone self.on_eos,
    on_body_chunk := Clone.clone self.on_body_chunk,
    make_span := Clone.clone self.make_span,
    make_classifier := Clone.clone self.make_classifier,
    _error := self._error }

/-- Modelled from the spec: the Decorator (`Trace`, defined outside the
visible source) pairing the inner capability with the cloned slot values,
with the field set used by `Layer::layer`. -/
structure Trace (S M E MakeSpan OnRequest OnResponse OnBodyChunk OnEos
    OnFailure : Type) where
  inner : S
  make_classifier : M
  make_span : MakeSpan
  on_request : OnRequest
  on_eos : OnEos
  on_body_chunk : OnBodyChunk
  on_response : OnResponse
  on_failure : OnFailure
  _error : Unit

/-- `Layer::layer for TraceLayer` (lines 260-272): reads the configuration
(by reference in Rust) and pairs `inner` with clones of the seven slots. -/
def TraceLayer.layer {M E MS Req Res BC Eos F S : Type} [Clone M] [Clone MS]
    [Clone Req] [Clone Res] [Clone Eos] [Clone BC] [Clone F]
    (self : TraceLayer M E MS Req Res BC Eos F) (inner : S) :
    Trace S M E MS Req Res BC Eos F :=
  { inner := inner,
    make_classifier := Clone.clone self.make_classifier,
    make_span := Clone.clone self.make_span,
    on_request := Clone.clone self.on_request,
    on_eos := Clone.clone self.on_eos,
    on_body_chunk := Clone.clone self.on_body_chunk,
    on_response := Clone.clone self.on_response,
    on_failure := Clone.clone self.on_failure,
    _error := () }

/-- `impl fmt::Debug for TraceLayer` (lines 286-296): the `debug_struct`
output, modelled as the ordered list of (field name, rendered value) pairs;
the `_error` marker is not emitted. -/
def TraceLayer.fmt {M E MS Req Res BC Eos F : Type} [Debug M] [Debug MS]
    [Debug Req] [Debug Res] [Debug Eos] [Debug BC] [Debug F]
    (self : TraceLayer M E MS Req Res BC Eos F) : List (String × String) :=
  [("make_classifier", Debug.fmt self.make_classifier),
   ("make_span", Debug.fmt self.make_span),
   ("on_request", Debug.fmt self.on_request),
   ("on_response", Debug.fmt self.on_response),
   ("on_body_chunk", Debug.fmt self.on_body_chunk),
   ("on_eos", Debug.fmt self.on_eos),
   ("on_failure", Debug.fmt self.on_failure)]

/-- Names for the six mutator slots, used to state order-independence of
mutator application. -/
inductive Slot : Type
  | makeSpan
  | onRequest
  | onResponse
  | onBodyChunk
  | onEos
  | onFailure
  deriving DecidableEq

/-- One fixed argument per mutator, for applying the six mutators in an
arbitrary order. -/
structure MutArgs (MS Req Res BC Eos F : Type) where
  arg_span : MS
  arg_request : Req
  arg_response : Res
  arg_chunk : BC
  arg_eos : Eos
  arg_failure : F

/-- Apply the mutator named by one slot, with that slot's fixed argument. -/
def applyMutator {M E MS Req Res BC Eos F : Type}
    (A : MutArgs MS Req Res BC Eos F)
    (cfg : TraceLayer M E MS Req Res BC Eos F) :
    Slot → TraceLayer M E MS Req Res BC Eos F
  | Slot.makeSpan => cfg.make_span_with A.arg_span
  | Slot.onRequest => cfg.with_on_request A.arg_request
  | Slot.onResponse => cfg.with_on_response A.arg_response
  | Slot.onBodyChunk => cfg.with_on_body_chunk A.arg_chunk
  | Slot.onEos => cfg.with_on_eos A.arg_eos
  | Slot.onFailure => cfg.with_on_failure A.arg_failure

/-- Apply a sequence of mutators left to right. -/
def applyMutators {M E MS Req Res BC Eos F : Type}
    (A : MutArgs MS Req Res BC Eos F) (l : List Slot)
    (cfg : TraceLayer M E MS Req Res BC Eos F) :
    TraceLayer M E MS Req Res BC Eos F :=
  l.foldl (applyMutator A) cfg

/-- The six distinct mutator slots, once each. -/
def allSlots : List Slot :=
  [Slot.makeSpan, Slot.onRequest, Slot.onResponse, Slot.onBodyChunk,
   Slot.onEos, Slot.onFailure]

instance : Clone Nat :=
  { clone := fun n => n }

instance : Debug Nat :=
  { fmt := fun n => toString n }

/-- A concrete sample configuration over `Nat` slots, used to witness the
theorems below at a fully evaluated input. -/
def sampleCfg : TraceLayer Nat Unit Nat Nat Nat Nat Nat Nat :=
  { make_classifier := 1,
    make_span := 2,
    on_request := 3,
    on_response := 4,
    on_body_chunk := 5,
    on_eos := 6,
    on_failure := 7,
    _error := () }

/-- Concrete sample mutator arguments over `Nat` slots. -/
def sampleArgs : MutArgs Nat Nat Nat Nat Nat Nat :=
  { arg_span := 12,
    arg_request := 13,
    arg_response := 14,
    arg_chunk := 15,
    arg_eos := 16,
    arg_failure := 17 }

/-- A mutator sequence never touches the classifier factory. -/
theorem applyMutators_make_classifier {M E MS Req Res BC Eos F : Type}
    (A : MutArgs MS Req Res BC Eos F) (l : List Slot)
    (cfg : TraceLayer M E MS Req Res BC Eos F) :
    (applyMutators A l cfg).make_classifier = cfg.make_classifier := by
  induction l generalizing cfg with
  | nil => rfl
  | cons i t ih =>
      have h : applyMutators A (i :: t) cfg
          = applyMutators A t (applyMutator A cfg i) := rfl
      rw [h, ih]
      cases i <;> rfl

/-- A mutator sequence never touches the error marker. -/
theorem applyMutators_error {M E MS Req Res BC Eos F : Type}
    (A : MutArgs MS Req Res BC Eos F) (l : List Slot)
    (cfg : TraceLayer M E MS Req Res BC Eos F) :
    (applyMutators A l cfg)._error = cfg._error :=
  rfl

/-- The span slot after a mutator sequence depends only on whether the span
mutator occurs in the sequence. -/
theorem applyMutators_make_span {M E MS Req Res BC Eos F : Type}
    (A : MutArgs MS Req Res BC Eos F) (l : List Slot)
    (cfg : TraceLayer M E MS Req Res BC Eos F) :
    (applyMutators A l cfg).make_span
      = if Slot.makeSpan ∈ l then A.arg_span else cfg.make_span := by
  induction l generalizing cfg with
  | nil => simp [applyMutators]
  | cons i t ih =>
      have h : applyMutators A (i :: t) cfg
          = applyMutators A t (applyMutator A cfg i) := rfl
      rw [h, ih]
      cases i <;> by_cases hm : Slot.makeSpan ∈ t <;>
        simp [hm, applyMutator, TraceLayer.make_span_with,
          TraceLayer.with_on_request, TraceLayer.with_on_response,
          TraceLayer.with_on_body_chunk, TraceLayer.with_on_eos,
          TraceLayer.with_on_failure]

/-- The request slot after a mutator sequence depends only on whether the
request mutator occurs in the sequence. -/
theorem applyMutators_on_request {M E MS Req Res BC Eos F : Type}
    (A : MutArgs MS Req Res BC Eos F) (l : List Slot)
    (cfg : TraceLayer M E MS Req Res BC Eos F) :
    (applyMutators A l cfg).on_request
      = if Slot.onRequest ∈ l then A.arg_request else cfg.on_request := by
  induction l generalizing cfg with
  | nil => simp [applyMutators]
  | cons i t ih =>
      have h : applyMutators A (i :: t) cfg
          = applyMutators A t (applyMutator A cfg i) := rfl
      rw [h, ih]
      cases i <;> by_cases hm : Slot.onRequest ∈ t <;>
        simp [hm, applyMutator, TraceLayer.make_span_with,
          TraceLayer.with_on_request, TraceLayer.with_on_response,
          TraceLayer.with_on_body_chunk, TraceLayer.with_on_eos,
          TraceLayer.with_on_failure]

/-- The response slot after a mutator sequence depends only on whether the
response mutator occurs in the sequence. -/
theorem applyMutators_on_response {M E MS Req Res BC Eos F : Type}
    (A : MutArgs MS Req Res BC Eos F) (l : List Slot)
    (cfg : TraceLayer M E MS Req Res BC Eos F) :
    (applyMutators A l cfg).on_response
      = if Slot.onResponse ∈ l then A.arg_response else cfg.on_response := by
  induction l generalizing cfg with
  | nil => simp [applyMutators]
  | cons i t ih =>
      have h : applyMutators A (i :: t) cfg
          = applyMutators A t (applyMutator A cfg i) := rfl
      rw [h, ih]
      cases i <;> by_cases hm : Slot.onResponse ∈ t <;>
        simp [hm, applyMutator, TraceLayer.make_span_with,
          TraceLayer.with_on_request, TraceLayer.with_on_response,
          TraceLayer.with_on_body_chunk, TraceLayer.with_on_eos,
          TraceLayer.with_on_failure]

/-- The body-chunk slot after a mutator sequence depends only on whether the
body-chunk mutator occurs in the sequence. -/
theorem applyMutators_on_body_chunk {M E MS Req Res BC Eos F : Type}
    (A : MutArgs MS Req Res BC Eos F) (l : List Slot)
    (cfg : TraceLayer M E MS Req Res BC Eos F) :
    (applyMutators A l cfg).on_body_chunk
      = if Slot.onBodyChunk ∈ l then A.arg_chunk else cfg.on_body_chunk := by
  induction l generalizing cfg with
  | nil => simp [applyMutators]
  | cons i t ih =>
      have h : applyMutators A (i :: t) cfg
          = applyMutators A t (applyMutator A cfg i) := rfl
      rw [h, ih]
      cases i <;> by_cases hm : Slot.onBodyChunk ∈ t <;>
        simp [hm, applyMutator, TraceLayer.make_span_with,
          TraceLayer.with_on_request, TraceLayer.with_on_response,
          TraceLayer.with_on_body_chunk, TraceLayer.with_on_eos,
          TraceLayer.with_on_failure]

/-- The end-of-stream slot after a mutator sequence depends only on whether
the end-of-stream mutator occurs in the sequence. -/
theorem applyMutators_on_eos {M E MS Req Res BC Eos F : Type}
    (A : MutArgs MS Req Res BC Eos F) (l : List Slot)
    (cfg : TraceLayer M E MS Req Res BC Eos F) :
    (applyMutators A l cfg).on_eos
      = if Slot.onEos ∈ l then A.arg_eos else cfg.on_eos := by
  induction l generalizing cfg with
  | nil => simp [applyMutators]
  | cons i t ih =>
      have h : applyMutators A (i :: t) cfg
          = applyMutators A t (applyMutator A cfg i) := rfl
      rw [h, ih]
      cases i <;> by_cases hm : Slot.onEos ∈ t <;>
        simp [hm, applyMutator, TraceLayer.make_span_with,
          TraceLayer.with_on_request, TraceLayer.with_on_response,
          TraceLayer.with_on_body_chunk, TraceLayer.with_on_eos,
          TraceLayer.with_on_failure]

/-- The failure slot after a mutator sequence depends only on whether the
failure mutator occurs in the sequence. -/
theorem applyMutators_on_failure {M E MS Req Res BC Eos F : Type}
    (A : MutArgs MS Req Res BC Eos F) (l : List Slot)
    (cfg : TraceLayer M E MS Req Res BC Eos F) :
    (applyMutators A l cfg).on_failure
      = if Slot.onFailure ∈ l then A.arg_failure else cfg.on_failure := by
  induction l generalizing cfg with
  | nil => simp [applyMutators]
  | cons i t ih =>
      have h : applyMutators A (i :: t) cfg
          = applyMutators A t (applyMutator A cfg i) := rfl
      rw [h, ih]
      cases i <;> by_cases hm : Slot.onFailure ∈ t <;>
        simp [hm, applyMutator, TraceLayer.make_span_with,
          TraceLayer.with_on_request, TraceLayer.with_on_response,
          TraceLayer.with_on_body_chunk, TraceLayer.with_on_eos,
          TraceLayer.with_on_failure]

/-- C1: each of the six fluent mutators returns a configuration in which
exactly its own slot holds the new value, while the other five hook slots,
the classifier factory and the error marker are carried over unchanged from
the input; in particular no mutator ever changes the classifier factory. -/
theorem trace_layer_mutator_frame
    {M E MS Req Res BC Eos F A₁ A₂ A₃ A₄ A₅ A₆ : Type}
    (cfg : TraceLayer M E MS Req Res BC Eos F)
    (v₁ : A₁) (v₂ : A₂) (v₃ : A₃) (v₄ : A₄) (v₅ : A₅) (v₆ : A₆) :
    cfg.with_on_request v₁
        = { make_classifier := cfg.make_classifier, make_span := cfg.make_span,
            on_request := v₁, on_response := cfg.on_response,
            on_body_chunk := cfg.on_body_chunk, on_eos := cfg.on_eos,
            on_failure := cfg.on_failure, _error := cfg._error } ∧
    cfg.with_on_response v₂
        = { make_classifier := cfg.make_classifier, make_span := cfg.make_span,
            on_request := cfg.on_request, on_response := v₂,
            on_body_chunk := cfg.on_body_chunk, on_eos := cfg.on_eos,
            on_failure := cfg.on_failure, _error := cfg._error } ∧
    cfg.with_on_body_chunk v₃
        = { make_classifier := cfg.make_classifier, make_span := cfg.make_span,
            on_request := cfg.on_request, on_response := cfg.on_response,
            on_body_chunk := v₃, on_eos := cfg.on_eos,
            on_failure := cfg.on_failure, _error := cfg._error } ∧
    cfg.with_on_eos v₄
        = { make_classifier := cfg.make_classifier, make_span := cfg.make_span,
            on_request := cfg.on_request, on_response := cfg.on_response,
            on_body_chunk := cfg.on_body_chunk, on_eos := v₄,
            on_failure := cfg.on_failure, _error := cfg._error } ∧
    cfg.with_on_failure v₅
        = { make_classifier := cfg.make_classifier, make_span := cfg.make_span,
            on_request := cfg.on_request, on_response := cfg.on_response,
            on_body_chunk := cfg.on_body_chunk, on_eos := cfg.on_eos,
            on_failure := v₅, _error := cfg._error } ∧
    cfg.make_span_with v₆
        = { make_classifier := cfg.make_classifier, make_span := v₆,
            on_request := cfg.on_request, on_response := cfg.on_response,
            on_body_chunk := cfg.on_body_chunk, on_eos := cfg.on_eos,
            on_failure := cfg.on_failure, _error := cfg._error } :=
  ⟨rfl, rfl, rfl, rfl, rfl, rfl⟩

/-- C2: applying a sequence of mutators with one fixed argument per slot is
order-independent: any two sequences that are permutations of one another
(in particular any two orderings of the six distinct-slot mutators) yield
configurations with identical per-slot values. -/
theorem trace_layer_mutators_commute {M E MS Req Res BC Eos F : Type}
    (A : MutArgs MS Req Res BC Eos F)
    (cfg : TraceLayer M E MS Req Res BC Eos F)
    (l₁ l₂ : List Slot) (hl : l₁.Perm l₂) :
    (applyMutators A l₁ cfg).make_classifier
        = (applyMutators A l₂ cfg).make_classifier ∧
    (applyMutators A l₁ cfg).make_span = (applyMutators A l₂ cfg).make_span ∧
    (applyMutators A l₁ cfg).on_request
        = (applyMutators A l₂ cfg).on_request ∧
    (applyMutators A l₁ cfg).on_response
        = (applyMutators A l₂ cfg).on_response ∧
    (applyMutators A l₁ cfg).on_body_chunk
        = (applyMutators A l₂ cfg).on_body_chunk ∧
    (applyMutators A l₁ cfg).on_eos = (applyMutators A l₂ cfg).on_eos ∧
    (applyMutators A l₁ cfg).on_failure
        = (applyMutators A l₂ cfg).on_failure := by
  refine ⟨?_, ?_, ?_, ?_, ?_, ?_, ?_⟩ <;>
    simp [applyMutators_make_classifier, applyMutators_make_span,
      applyMutators_on_request, applyMutators_on_response,
      applyMutators_on_body_chunk, applyMutators_on_eos,
      applyMutators_on_failure, hl.mem_iff]

/-- Witness for C2: a concrete permutation of all six distinct-slot
mutators against the identity ordering, at a concrete configuration. -/
theorem trace_layer_mutators_commute_witness :
    (applyMutators sampleArgs
        [Slot.onFailure, Slot.makeSpan, Slot.onRequest, Slot.onResponse,
         Slot.onBodyChunk, Slot.onEos] sampleCfg).make_classifier
        = (applyMutators sampleArgs allSlots sampleCfg).make_classifier ∧
    (applyMutators sampleArgs
        [Slot.onFailure, Slot.makeSpan, Slot.onRequest, Slot.onResponse,
         Slot.onBodyChunk, Slot.onEos] sampleCfg).make_span
        = (applyMutators sampleArgs allSlots sampleCfg).make_span ∧
    (applyMutators sampleArgs
        [Slot.onFailure, Slot.makeSpan, Slot.onRequest, Slot.onResponse,
         Slot.onBodyChunk, Slot.onEos] sampleCfg).on_request
        = (applyMutators sampleArgs allSlots sampleCfg).on_request ∧
    (applyMutators sampleArgs
        [Slot.onFailure, Slot.makeSpan, Slot.onRequest, Slot.onResponse,
         Slot.onBodyChunk, Slot.onEos] sampleCfg).on_response
        = (applyMutators sampleArgs allSlots sampleCfg).on_response ∧
    (applyMutators sampleArgs
        [Slot.onFailure, Slot.makeSpan, Slot.onRequest, Slot.onResponse,
         Slot.onBodyChunk, Slot.onEos] sampleCfg).on_body_chunk
        = (applyMutators sampleArgs allSlots sampleCfg).on_body_chunk ∧
    (applyMutators sampleArgs
        [Slot.onFailure, Slot.makeSpan, Slot.onRequest, Slot.onResponse,
         Slot.onBodyChunk, Slot.onEos] sampleCfg).on_eos
        = (applyMutators sampleArgs allSlots sampleCfg).on_eos ∧
    (applyMutators sampleArgs
        [Slot.onFailure, Slot.makeSpan, Slot.onRequest, Slot.onResponse,
         Slot.onBodyChunk, Slot.onEos] sampleCfg).on_failure
        = (applyMutators sampleArgs allSlots sampleCfg).on_failure :=
  trace_layer_mutators_commute sampleArgs sampleCfg
    [Slot.onFailure, Slot.makeSpan, Slot.onRequest, Slot.onResponse,
     Slot.onBodyChunk, Slot.onEos] allSlots (by decide)

/-- Over `Nat` slots the registered `clone` is the identity, so it is
well-behaved; used to discharge the clone-law hypotheses in witnesses. -/
theorem cloneNat_id : ∀ x : Nat, Clone.clone x = x :=
  fun _ => rfl

/-- C3: `Layer::layer` pairs the given inner value, held exactly, with
clones of the seven slots of the configuration; the configuration is only
read (taken by reference in Rust), never consumed or modified. -/
theorem trace_layer_layer_spec {M E MS Req Res BC Eos F S : Type} [Clone M]
    [Clone MS] [Clone Req] [Clone Res] [Clone Eos] [Clone BC] [Clone F]
    (cfg : TraceLayer M E MS Req Res BC Eos F) (inner : S) :
    cfg.layer inner
      = { inner := inner,
          make_classifier := Clone.clone cfg.make_classifier,
          make_span := Clone.clone cfg.make_span,
          on_request := Clone.clone cfg.on_request,
          on_eos := Clone.clone cfg.on_eos,
          on_body_chunk := Clone.clone cfg.on_body_chunk,
          on_response := Clone.clone cfg.on_response,
          on_failure := Clone.clone cfg.on_failure,
          _error := () } :=
  rfl

/-- Witness for C3 at the concrete sample configuration and inner value 42
(over `Nat`, where `clone` is the identity). -/
theorem trace_layer_layer_spec_witness :
    sampleCfg.layer 42
      = { inner := 42, make_classifier := 1, make_span := 2, on_request := 3,
          on_eos := 6, on_body_chunk := 5, on_response := 4, on_failure := 7,
          _error := () } :=
  trace_layer_layer_spec sampleCfg 42

/-- C4: building twice from one configuration, with well-behaved slot
clones, yields two decorators holding their respective inner values whose
seven slot copies each equal the source configuration's slots (and hence
equal each other); the configuration itself is untouched. -/
theorem trace_layer_build_twice {M E MS Req Res BC Eos F Sa Sb : Type}
    [Clone M] [Clone MS] [Clone Req] [Clone Res] [Clone Eos] [Clone BC]
    [Clone F] (cfg : TraceLayer M E MS Req Res BC Eos F) (a : Sa) (b : Sb)
    (hM : ∀ x : M, Clone.clone x = x) (hMS : ∀ x : MS, Clone.clone x = x)
    (hReq : ∀ x : Req, Clone.clone x = x)
    (hRes : ∀ x : Res, Clone.clone x = x)
    (hEos : ∀ x : Eos, Clone.clone x = x)
    (hBC : ∀ x : BC, Clone.clone x = x) (hF : ∀ x : F, Clone.clone x = x) :
    cfg.layer a
        = { inner := a, make_classifier := cfg.make_classifier,
            make_span := cfg.make_span, on_request := cfg.on_request,
            on_eos := cfg.on_eos, on_body_chunk := cfg.on_body_chunk,
            on_response := cfg.on_response, on_failure := cfg.on_failure,
            _error := () } ∧
    cfg.layer b
        = { inner := b, make_classifier := cfg.make_classifier,
            make_span := cfg.make_span, on_request := cfg.on_request,
            on_eos := cfg.on_eos, on_body_chunk := cfg.on_body_chunk,
            on_response := cfg.on_response, on_failure := cfg.on_failure,
            _error := () } ∧
    (cfg.layer a).inner = a ∧ (cfg.layer b).inner = b := by
  refine ⟨?_, ?_, rfl, rfl⟩ <;>
    simp [TraceLayer.layer, hM, hMS, hReq, hRes, hEos, hBC, hF]

/-- Witness for C4 at the concrete sample configuration with inner values
42 and 43 (over `Nat`, where `clone` is the identity). -/
theorem trace_layer_build_twice_witness :
    sampleCfg.layer 42
        = { inner := 42, make_classifier := sampleCfg.make_classifier,
            make_span := sampleCfg.make_span,
            on_request := sampleCfg.on_request, on_eos := sampleCfg.on_eos,
            on_body_chunk := sampleCfg.on_body_chunk,
            on_response := sampleCfg.on_response,
            on_failure := sampleCfg.on_failure, _error := () } ∧
    sampleCfg.layer 43
        = { inner := 43, make_classifier := sampleCfg.make_classifier,
            make_span := sampleCfg.make_span,
            on_request := sampleCfg.on_request, on_eos := sampleCfg.on_eos,
            on_body_chunk := sampleCfg.on_body_chunk,
            on_response := sampleCfg.on_response,
            on_failure := sampleCfg.on_failure, _error := () } ∧
    (sampleCfg.layer 42).inner = 42 ∧ (sampleCfg.layer 43).inner = 43 :=
  trace_layer_build_twice sampleCfg 42 43 cloneNat_id cloneNat_id
    cloneNat_id cloneNat_id cloneNat_id cloneNat_id cloneNat_id

/-- C5: `TraceLayer::new` stores the given classifier factory and fills the
six hook slots with exactly the documented built-in defaults. -/
theorem trace_layer_new_defaults {M E : Type} (m : M) :
    TraceLayer.new (E := E) m
      = { make_classifier := m, make_span := DefaultMakeSpan.new,
          on_request := DefaultOnRequest.default,
          on_response := DefaultOnResponse.default,
          on_body_chunk := DefaultOnBodyChunk.default,
          on_eos := DefaultOnEos.default,
          on_failure := DefaultOnFailure.default, _error := () } :=
  rfl

/-- C6: the two preset constructors fix the classifier factory to the
shared status-code-based policy (HTTP) and the shared grpc-status-based
policy (gRPC) respectively, and default all six hook slots exactly as
`TraceLayer::new` does. -/
theorem trace_layer_presets {E : Type} :
    TraceLayer.new_for_http (E := E)
        = { make_classifier
              := SharedClassifier.new ServerErrorsAsFailures.default,
            make_span := DefaultMakeSpan.new,
            on_request := DefaultOnRequest.default,
            on_response := DefaultOnResponse.default,
            on_body_chunk := DefaultOnBodyChunk.default,
            on_eos := DefaultOnEos.default,
            on_failure := DefaultOnFailure.default, _error := () } ∧
    TraceLayer.new_for_grpc (E := E)
        = { make_classifier
              := SharedClassifier.new GrpcErrorsAsFailures.default,
            make_span := DefaultMakeSpan.new,
            on_request := DefaultOnRequest.default,
            on_response := DefaultOnResponse.default,
            on_body_chunk := DefaultOnBodyChunk.default,
            on_eos := DefaultOnEos.default,
            on_failure := DefaultOnFailure.default, _error := () } :=
  ⟨rfl, rfl⟩

/-- C7: cloning a configuration duplicates each of the seven slots through
that slot's own `clone` (field-wise, nothing shared), and when every slot's
`clone` is well-behaved the clone has per-slot values equal to the
original's, so the clone equals the original. -/
theorem trace_layer_clone_spec {M E MS Req Res BC Eos F : Type} [Clone M]
    [Clone MS] [Clone Req] [Clone Res] [Clone Eos] [Clone BC] [Clone F]
    (cfg : TraceLayer M E MS Req Res BC Eos F)
    (hM : ∀ x : M, Clone.clone x = x) (hMS : ∀ x : MS, Clone.clone x = x)
    (hReq : ∀ x : Req, Clone.clone x = x)
    (hRes : ∀ x : Res, Clone.clone x = x)
    (hEos : ∀ x : Eos, Clone.clone x = x)
    (hBC : ∀ x : BC, Clone.clone x = x) (hF : ∀ x : F, Clone.clone x = x) :
    cfg.clone
        = { make_classifier := Clone.clone cfg.make_classifier,
            make_span := Clone.clone cfg.make_span,
            on_request := Clone.clone cfg.on_request,
            on_response := Clone.clone cfg.on_response,
            on_body_chunk := Clone.clone cfg.on_body_chunk,
            on_eos := Clone.clone cfg.on_eos,
            on_failure := Clone.clone cfg.on_failure,
            _error := cfg._error } ∧
    cfg.clone = cfg := by
  refine ⟨rfl, ?_⟩
  simp [TraceLayer.clone, hM, hMS, hReq, hRes, hEos, hBC, hF]

/-- Witness for C7 at the concrete sample configuration (over `Nat`, where
`clone` is the identity). -/
theorem trace_layer_clone_spec_witness :
    sampleCfg.clone
        = { make_classifier := Clone.clone sampleCfg.make_classifier,
            make_span := Clone.clone sampleCfg.make_span,
            on_request := Clone.clone sampleCfg.on_request,
            on_response := Clone.clone sampleCfg.on_response,
            on_body_chunk := Clone.clone sampleCfg.on_body_chunk,
            on_eos := Clone.clone sampleCfg.on_eos,
            on_failure := Clone.clone sampleCfg.on_failure,
            _error := sampleCfg._error } ∧
    sampleCfg.clone = sampleCfg :=
  trace_layer_clone_spec sampleCfg cloneNat_id cloneNat_id cloneNat_id
    cloneNat_id cloneNat_id cloneNat_id cloneNat_id

/-- C8: the Debug representation lists exactly the seven configured slots,
in the fixed order make_classifier, make_span, on_request, on_response,
on_body_chunk, on_eos, on_failure, and never includes the error marker. -/
theorem trace_layer_fmt_fields {M E MS Req Res BC Eos F : Type} [Debug M]
    [Debug MS] [Debug Req] [Debug Res] [Debug Eos] [Debug BC] [Debug F]
    (cfg : TraceLayer M E MS Req Res BC Eos F) :
    (cfg.fmt).map Prod.fst
        = ["make_classifier", "make_span", "on_request", "on_response",
           "on_body_chunk", "on_eos", "on_failure"] ∧
    "_error" ∉ (cfg.fmt).map Prod.fst := by
  refine ⟨rfl, ?_⟩
  rw [show (cfg.fmt).map Prod.fst
      = ["make_classifier", "make_span", "on_request", "on_response",
         "on_body_chunk", "on_eos", "on_failure"] from rfl]
  simp

/-- Witness for C8 at the concrete sample configuration. -/
theorem trace_layer_fmt_fields_witness :
    (sampleCfg.fmt).map Prod.fst
        = ["make_classifier", "make_span", "on_request", "on_response",
           "on_body_chunk", "on_eos", "on_failure"] ∧
    "_error" ∉ (sampleCfg.fmt).map Prod.fst :=
  trace_layer_fmt_fields sampleCfg

/-- C9: every operation of the core — `new`, `new_for_http`, `new_for_grpc`,
the six fluent mutators, `clone` and `layer` — is a total function: on every
well-typed input it terminates and returns the fully determined value below,
with no runtime failure or error path. -/
theorem trace_layer_total {M E MS Req Res BC Eos F S : Type}
    {A₁ A₂ A₃ A₄ A₅ A₆ : Type} [Clone M] [Clone MS] [Clone Req] [Clone Res]
    [Clone Eos] [Clone BC] [Clone F] (m : M)
    (cfg : TraceLayer M E MS Req Res BC Eos F) (inner : S)
    (v₁ : A₁) (v₂ : A₂) (v₃ : A₃) (v₄ : A₄) (v₅ : A₅) (v₆ : A₆) :
    TraceLayer.new (E := E) m
        = { make_classifier := m, make_span := DefaultMakeSpan.new,
            on_request := DefaultOnRequest.default,
            on_response := DefaultOnResponse.default,
            on_body_chunk := DefaultOnBodyChunk.default,
            on_eos := DefaultOnEos.default,
            on_failure := DefaultOnFailure.default, _error := () } ∧
    TraceLayer.new_for_http (E := E)
        = { make_classifier
              := SharedClassifier.new ServerErrorsAsFailures.default,
            make_span := DefaultMakeSpan.new,
            on_request := DefaultOnRequest.default,
            on_response := DefaultOnResponse.default,
            on_body_chunk := DefaultOnBodyChunk.default,
            on_eos := DefaultOnEos.default,
            on_failure := DefaultOnFailure.default, _error := () } ∧
    TraceLayer.new_for_grpc (E := E)
        = { make_classifier
              := SharedClassifier.new GrpcErrorsAsFailures.default,
            make_span := DefaultMakeSpan.new,
            on_request := DefaultOnRequest.default,
            on_response := DefaultOnResponse.default,
            on_body_chunk := DefaultOnBodyChunk.default,
            on_eos := DefaultOnEos.default,
            on_failure := DefaultOnFailure.default, _error := () } ∧
    cfg.with_on_request v₁
        = { make_classifier := cfg.make_classifier,
            make_span := cfg.make_span, on_request := v₁,
            on_response := cfg.on_response,
            on_body_chunk := cfg.on_body_chunk, on_eos := cfg.on_eos,
            on_failure := cfg.on_failure, _error := cfg._error } ∧
    cfg.with_on_response v₂
        = { make_classifier := cfg.make_classifier,
            make_span := cfg.make_span, on_request := cfg.on_request,
            on_response := v₂, on_body_chunk := cfg.on_body_chunk,
            on_eos := cfg.on_eos, on_failure := cfg.on_failure,
            _error := cfg._error } ∧
    cfg.with_on_body_chunk v₃
        = { make_classifier := cfg.make_classifier,
            make_span := cfg.make_span, on_request := cfg.on_request,
            on_response := cfg.on_response, on_body_chunk := v₃,
            on_eos := cfg.on_eos, on_failure := cfg.on_failure,
            _error := cfg._error } ∧
    cfg.with_on_eos v₄
        = { make_classifier := cfg.make_classifier,
            make_span := cfg.make_span, on_request := cfg.on_request,
            on_response := cfg.on_response,
            on_body_chunk := cfg.on_body_chunk, on_eos := v₄,
            on_failure := cfg.on_failure, _error := cfg._error } ∧
    cfg.with_on_failure v₅
        = { make_classifier := cfg.make_classifier,
            make_span := cfg.make_span, on_request := cfg.on_request,
            on_response := cfg.on_response,
            on_body_chunk := cfg.on_body_chunk, on_eos := cfg.on_eos,
            on_failure := v₅, _error := cfg._error } ∧
    cfg.make_span_with v₆
        = { make_classifier := cfg.make_classifier, make_span := v₆,
            on_request := cfg.on_request, on_response := cfg.on_response,
            on_body_chunk := cfg.on_body_chunk, on_eos := cfg.on_eos,
            on_failure := cfg.on_failure, _error := cfg._error } ∧
    cfg.clone
        = { make_classifier := Clone.clone cfg.make_classifier,
            make_span := Clone.clone cfg.make_span,
            on_request := Clone.clone cfg.on_request,
            on_response := Clone.clone cfg.on_response,
            on_body_chunk := Clone.clone cfg.on_body_chunk,
            on_eos := Clone.clone cfg.on_eos,
            on_failure := Clone.clone cfg.on_failure,
            _error := cfg._error } ∧
    cfg.layer inner
        = { inner := inner,
            make_classifier := Clone.clone cfg.make_classifier,
            make_span := Clone.clone cfg.make_span,
            on_request := Clone.clone cfg.on_request,
            on_eos := Clone.clone cfg.on_eos,
            on_body_chunk := Clone.clone cfg.on_body_chunk,
            on_response := Clone.clone cfg.on_response,
            on_failure := Clone.clone cfg.on_failure, _error := () } :=
  ⟨rfl, rfl, rfl, rfl, rfl, rfl, rfl, rfl, rfl, rfl, rfl⟩

/-- Witness for C9 at concrete `Nat`-slot inputs. -/
theorem trace_layer_total_witness :
    TraceLayer.new (E := Unit) 9
        = { make_classifier := 9, make_span := DefaultMakeSpan.new,
            on_request := DefaultOnRequest.default,
            on_response := DefaultOnResponse.default,
            on_body_chunk := DefaultOnBodyChunk.default,
            on_eos := DefaultOnEos.default,
            on_failure := DefaultOnFailure.default, _error := () } ∧
    TraceLayer.new_for_http (E := Unit)
        = { make_classifier
              := SharedClassifier.new ServerErrorsAsFailures.default,
            make_span := DefaultMakeSpan.new,
            on_request := DefaultOnRequest.default,
            on_response := DefaultOnResponse.default,
            on_body_chunk := DefaultOnBodyChunk.default,
            on_eos := DefaultOnEos.default,
            on_failure := DefaultOnFailure.default, _error := () } ∧
    TraceLayer.new_for_grpc (E := Unit)
        = { make_classifier
              := SharedClassifier.new GrpcErrorsAsFailures.default,
            make_span := DefaultMakeSpan.new,
            on_request := DefaultOnRequest.default,
            on_response := DefaultOnResponse.default,
            on_body_chunk := DefaultOnBodyChunk.default,
            on_eos := DefaultOnEos.default,
            on_failure := DefaultOnFailure.default, _error := () } ∧
    sampleCfg.with_on_request 23
        = { make_classifier := sampleCfg.make_classifier,
            make_span := sampleCfg.make_span, on_request := 23,
            on_response := sampleCfg.on_response,
            on_body_chunk := sampleCfg.on_body_chunk,
            on_eos := sampleCfg.on_eos, on_failure := sampleCfg.on_failure,
            _error := sampleCfg._error } ∧
    sampleCfg.with_on_response 24
        = { make_classifier := sampleCfg.make_classifier,
            make_span := sampleCfg.make_span,
            on_request := sampleCfg.on_request, on_response := 24,
            on_body_chunk := sampleCfg.on_body_chunk,
            on_eos := sampleCfg.on_eos, on_failure := sampleCfg.on_failure,
            _error := sampleCfg._error } ∧
    sampleCfg.with_on_body_chunk 25
        = { make_classifier := sampleCfg.make_classifier,
            make_span := sampleCfg.make_span,
            on_request := sampleCfg.on_request,
            on_response := sampleCfg.on_response, on_body_chunk := 25,
            on_eos := sampleCfg.on_eos, on_failure := sampleCfg.on_failure,
            _error := sampleCfg._error } ∧
    sampleCfg.with_on_eos 26
        = { make_classifier := sampleCfg.make_classifier,
            make_span := sampleCfg.make_span,
            on_request := sampleCfg.on_request,
            on_response := sampleCfg.on_response,
            on_body_chunk := sampleCfg.on_body_chunk, on_eos := 26,
            on_failure := sampleCfg.on_failure,
            _error := sampleCfg._error } ∧
    sampleCfg.with_on_failure 27
        = { make_classifier := sampleCfg.make_classifier,
            make_span := sampleCfg.make_span,
            on_request := sampleCfg.on_request,
            on_response := sampleCfg.on_response,
            on_body_chunk := sampleCfg.on_body_chunk,
            on_eos := sampleCfg.on_eos, on_failure := 27,
            _error := sampleCfg._error } ∧
    sampleCfg.make_span_with 22
        = { make_classifier := sampleCfg.make_classifier, make_span := 22,
            on_request := sampleCfg.on_request,
            on_response := sampleCfg.on_response,
            on_body_chunk := sampleCfg.on_body_chunk,
            on_eos := sampleCfg.on_eos, on_failure := sampleCfg.on_failure,
            _error := sampleCfg._error } ∧
    sampleCfg.clone
        = { make_classifier := Clone.clone sampleCfg.make_classifier,
            make_span := Clone.clone sampleCfg.make_span,
            on_request := Clone.clone sampleCfg.on_request,
            on_response := Clone.clone sampleCfg.on_response,
            on_body_chunk := Clone.clone sampleCfg.on_body_chunk,
            on_eos := Clone.clone sampleCfg.on_eos,
            on_failure := Clone.clone sampleCfg.on_failure,
            _error := sampleCfg._error } ∧
    sampleCfg.layer 42
        = { inner := 42,
            make_classifier := Clone.clone sampleCfg.make_classifier,
            make_span := Clone.clone sampleCfg.make_span,
            on_request := Clone.clone sampleCfg.on_request,
            on_eos := Clone.clone sampleCfg.on_eos,
            on_body_chunk := Clone.clone sampleCfg.on_body_chunk,
            on_response := Clone.clone sampleCfg.on_response,
            on_failure := Clone.clone sampleCfg.on_failure,
            _error := () } :=
  trace_layer_total 9 sampleCfg 42 23 24 25 26 27 22

/-- C10: each fluent mutator is last-write-wins on its own slot: applying
the same slot's mutator twice in succession with values v₁ then v₂ yields
exactly the configuration produced by applying it once with v₂, with no
other slot disturbed. -/
theorem trace_layer_last_write_wins
    {M E MS Req Res BC Eos F : Type}
    {A₁ B₁ A₂ B₂ A₃ B₃ A₄ B₄ A₅ B₅ A₆ B₆ : Type}
    (cfg : TraceLayer M E MS Req Res BC Eos F)
    (a₁ : A₁) (b₁ : B₁) (a₂ : A₂) (b₂ : B₂) (a₃ : A₃) (b₃ : B₃)
    (a₄ : A₄) (b₄ : B₄) (a₅ : A₅) (b₅ : B₅) (a₆ : A₆) (b₆ : B₆) :
    (cfg.with_on_request a₁).with_on_request b₁ = cfg.with_on_request b₁ ∧
    (cfg.with_on_response a₂).with_on_response b₂
        = cfg.with_on_response b₂ ∧
    (cfg.with_on_body_chunk a₃).with_on_body_chunk b₃
        = cfg.with_on_body_chunk b₃ ∧
    (cfg.with_on_eos a₄).with_on_eos b₄ = cfg.with_on_eos b₄ ∧
    (cfg.with_on_failure a₅).with_on_failure b₅ = cfg.with_on_failure b₅ ∧
    (cfg.make_span_with a₆).make_span_with b₆ = cfg.make_span_with b₆ :=
  ⟨rfl, rfl, rfl, rfl, rfl, rfl⟩
